import Mathlib

/-!
Shallow embedding of the transcription feature in
`apps/whispering/src/lib/stores/split-audio-dialog.svelte.ts` and its
companion transcription mutation module.

JavaScript numbers are modelled as rationals, blobs as records carrying a
byte size and a content tag, and calls to injected services (ffmpeg
compression and splitting, the database, the provider API clients, the
dialog promise) as functions supplied in an environment record.  Side
effects that the claims talk about (which blob each service receives,
notifications) are recorded in an explicit event trace.
-/

/-- A binary blob: its byte size plus a tag distinguishing its content. -/
structure Blob where
  size : Nat
  tag : Nat
  deriving DecidableEq

/-- The five user-tunable splitting options, as in the `SplitAudioDialogOptions`
type of the store. -/
structure SplitAudioDialogOptions where
  maxMb : ℚ
  bitrateKbps : ℚ
  minChunkSec : ℚ
  safetyMb : ℚ
  addSplitTags : Bool
  deriving DecidableEq

/-- The four numeric options that `ffmpeg.splitAudioBlob` and
`calculateChunkSeconds` receive (everything except `addSplitTags`). -/
structure SplitParams where
  maxMb : ℚ
  bitrateKbps : ℚ
  minChunkSec : ℚ
  safetyMb : ℚ
  deriving DecidableEq

/-- Drop the `addSplitTags` flag, as done when the options object is passed to
`ffmpeg.splitAudioBlob` and `calculateChunkSeconds`. -/
def SplitAudioDialogOptions.toParams (o : SplitAudioDialogOptions) : SplitParams :=
  { maxMb := o.maxMb, bitrateKbps := o.bitrateKbps
    minChunkSec := o.minChunkSec, safetyMb := o.safetyMb }

/-- The `WhisperingError` shape: a title plus an optional description or
wrapped service error. -/
structure WhisperingError where
  title : String
  description : String := ""
  serviceError : Option String := none
  deriving DecidableEq

/-- `MAX_TRANSCRIPTION_FILE_MB = 25`. -/
def MAX_TRANSCRIPTION_FILE_MB : Nat := 25

/-- `MB_BYTES = 1024 * 1024`. -/
def MB_BYTES : Nat := 1024 * 1024

/-- `calculateChunkSeconds`: target bytes over bytes per second, floored, with
the `minChunkSec` lower bound (source lines 465-474). -/
def calculateChunkSeconds (options : SplitParams) : ℚ :=
  let targetBytes : ℚ := (options.maxMb - options.safetyMb) * (MB_BYTES : ℚ)
  let bytesPerSecond : ℚ := options.bitrateKbps * 1000 / 8
  max options.minChunkSec ((⌊targetBytes / bytesPerSecond⌋ : ℤ) : ℚ)

/-- `String.padStart(2, '0')` of JavaScript, for the decimal rendering of a
natural number (never the empty string). -/
def padStart (s : String) : String :=
  if s.length < 2 then "0" ++ s else s

/-- `formatTimestamp` (source lines 482-491): clamp to a non-negative whole
number of seconds, then render `mm:ss`, prefixed with `hh:` when at least one
hour. -/
def formatTimestamp (totalSeconds : ℚ) : String :=
  let clampedSeconds : Nat := (max 0 ⌊totalSeconds⌋).toNat
  let hours : Nat := clampedSeconds / 3600
  let minutes : Nat := clampedSeconds % 3600 / 60
  let seconds : Nat := clampedSeconds % 60
  let hourPfx : String := if hours > 0 then padStart (toString hours) ++ ":" else ""
  hourPfx ++ padStart (toString minutes) ++ ":" ++ padStart (toString seconds)

/-- `formatSplitTag` (source lines 476-480). -/
def formatSplitTag (index : Nat) (startSeconds endSeconds : ℚ) : String :=
  "[Chunk " ++ toString index ++ " • " ++ formatTimestamp startSeconds ++
    " – " ++ formatTimestamp endSeconds ++ "]"

/-- The timestamp shape the spec states for split tags: always `mm:ss` with
minutes and seconds each zero-padded to two digits.  Modelled from the words
of the spec, for comparison with `formatTimestamp`. -/
def specTimestampMMSS (totalSeconds : ℚ) : String :=
  let t : Nat := (max 0 ⌊totalSeconds⌋).toNat
  padStart (toString (t / 60)) ++ ":" ++ padStart (toString (t % 60))

/-- The transcription services of the `switch` in `transcribeWithProvider`;
`unselected` is the `default` branch. -/
inductive TranscriptionService where
  | openai
  | groq
  | speaches
  | elevenlabs
  | deepgram
  | mistral
  | whispercpp
  | parakeet
  | moonshine
  | unselected
  deriving DecidableEq

/-- Observable events of one `transcribeBlob` run: which blob each injected
service was handed, and the compression outcome that was notified. -/
inductive TEvent where
  | compressFailed (input : Blob)
  | compressSucceeded (input output : Blob)
  | dialogOpened (b : Blob)
  | splitCalled (input : Blob)
  | providerCalled (input : Blob)
  deriving DecidableEq

/-- The injected services and settings that `transcribeBlob` reads: the
compression toggle and ffmpeg services, the value the split dialog resolves
with (`some options` on confirm, `none` on cancel), and the selected provider
together with its transcribe endpoint. -/
structure TranscribeEnv where
  compressionEnabled : Bool
  compressAudioBlob : Blob → Except String Blob
  splitAudioBlob : Blob → SplitParams → Except String (List Blob)
  dialogResult : Option SplitAudioDialogOptions
  selectedService : TranscriptionService
  providerTranscribe : TranscriptionService → Blob → Except WhisperingError String

/-- The error returned when no transcription service is selected
(the `default` branch of `transcribeWithProvider`). -/
def noServiceSelectedError : WhisperingError :=
  { title := "⚠️ No transcription service selected"
    description := "Please select a transcription service in settings." }

/-- The error returned when the split dialog is cancelled. -/
def splitCanceledError : WhisperingError :=
  { title := "Split canceled"
    description := "Transcription was canceled because the audio file exceeds 25MB." }

/-- `transcribeWithProvider` (source lines 366-463): dispatch on the selected
service; every concrete service branch calls that service on the audio. -/
def transcribeWithProvider (env : TranscribeEnv) (audioToTranscribe : Blob) :
    Except WhisperingError String × List TEvent :=
  match env.selectedService with
  | TranscriptionService.unselected => (Except.error noServiceSelectedError, [])
  | s => (env.providerTranscribe s audioToTranscribe, [TEvent.providerCalled audioToTranscribe])

/-- The chunk loop of `transcribeSplitAudio` (source lines 343-361): transcribe
each chunk in order, abort on the first error, otherwise accumulate the
(optionally tagged) trimmed texts. -/
def splitLoop (env : TranscribeEnv) (addSplitTags : Bool) (chunkSeconds : ℚ) :
    List Blob → Nat → List String → Except WhisperingError (List String) × List TEvent
  | [], _, merged => (Except.ok merged, [])
  | chunk :: rest, index, merged =>
    let step := transcribeWithProvider env chunk
    match step.1 with
    | Except.error e => (Except.error e, step.2)
    | Except.ok text =>
      let merged' :=
        if addSplitTags then
          merged ++ [formatSplitTag (index + 1) ((index : ℚ) * chunkSeconds)
            (((index : ℚ) + 1) * chunkSeconds), text.trim]
        else
          merged ++ [text.trim]
      let next := splitLoop env addSplitTags chunkSeconds rest (index + 1) merged'
      (next.1, step.2 ++ next.2)

/-- `transcribeSplitAudio` (source lines 314-364): call `ffmpeg.splitAudioBlob`,
abort with an `Audio split failed` error on failure, otherwise run the chunk
loop and join the accumulated segments with a blank line. -/
def transcribeSplitAudio (env : TranscribeEnv) (blob : Blob)
    (options : SplitAudioDialogOptions) :
    Except WhisperingError String × List TEvent :=
  match env.splitAudioBlob blob options.toParams with
  | Except.error splitError =>
    (Except.error { title := "Audio split failed", serviceError := some splitError },
      [TEvent.splitCalled blob])
  | Except.ok splitBlobs =>
    let chunkSeconds := calculateChunkSeconds options.toParams
    let run := splitLoop env options.addSplitTags chunkSeconds splitBlobs 0 []
    (match run.1 with
      | Except.error e => Except.error e
      | Except.ok merged => Except.ok (String.intercalate "\n\n" merged),
      TEvent.splitCalled blob :: run.2)

/-- The compression step at the top of `transcribeBlob` (source lines 218-256):
when compression is enabled, try to compress; on failure notify and keep the
original blob, on success use the compressed blob. -/
def compressStep (env : TranscribeEnv) (blob : Blob) : Blob × List TEvent :=
  if env.compressionEnabled then
    match env.compressAudioBlob blob with
    | Except.error _ => (blob, [TEvent.compressFailed blob])
    | Except.ok compressedBlob => (compressedBlob, [TEvent.compressSucceeded blob compressedBlob])
  else (blob, [])

/-- The remainder of `transcribeBlob` after the compression step (source lines
258-292): decide the split on the size of the fetched `blob`; oversized audio
opens the split dialog and, when confirmed, goes through `transcribeSplitAudio`
on the fetched `blob`, while audio at or under the limit goes directly to the
provider with `audioToTranscribe`. -/
def pipelineAfterCompression (env : TranscribeEnv) (blob audioToTranscribe : Blob) :
    Except WhisperingError String × List TEvent :=
  let requiresSplit := blob.size > MAX_TRANSCRIPTION_FILE_MB * MB_BYTES
  if requiresSplit then
    match env.dialogResult with
    | none => (Except.error splitCanceledError, [TEvent.dialogOpened blob])
    | some splitOptions =>
      let run := transcribeSplitAudio env blob splitOptions
      (run.1, TEvent.dialogOpened blob :: run.2)
  else
    transcribeWithProvider env audioToTranscribe

/-- `transcribeBlob` (source lines 205-312): the compression step feeds its
output into the rest of the pipeline as `audioToTranscribe`. -/
def transcribeBlob (env : TranscribeEnv) (blob : Blob) :
    Except WhisperingError String × List TEvent :=
  let comp := compressStep env blob
  let run := pipelineAfterCompression env blob comp.1
  (run.1, comp.2 ++ run.2)

/-- The list of segments the chunk loop accumulates when every chunk
transcribes successfully, starting from chunk index `i`: with tags enabled, the
tag of chunk `i + 1` (covering `i * chunkSeconds` to `(i + 1) * chunkSeconds`)
followed by the trimmed text; with tags disabled, just the trimmed text. -/
def expectedSegments (addSplitTags : Bool) (chunkSeconds : ℚ) :
    Nat → List String → List String
  | _, [] => []
  | i, text :: rest =>
    (if addSplitTags then
      [formatSplitTag (i + 1) ((i : ℚ) * chunkSeconds) (((i : ℚ) + 1) * chunkSeconds)]
    else []) ++ text.trim :: expectedSegments addSplitTags chunkSeconds (i + 1) rest

/-! ### The split-audio dialog store -/

/-- The request handed to `splitAudioDialog.open`. -/
structure SplitAudioDialogRequest where
  blob : Blob
  blobSizeMb : ℚ
  options : SplitAudioDialogOptions
  deriving DecidableEq

/-- The state of the store created by `createSplitAudioDialog`: the reactive
fields plus the pending promise resolver, modelled as the identifier of the
pending promise (`none` when no request is pending). -/
structure DialogState where
  isOpen : Bool
  blob : Option Blob
  blobSizeMb : Option ℚ
  options : SplitAudioDialogOptions
  resolvePromise : Option Nat
  deriving DecidableEq

/-- The initial state of the store (source lines 18-28). -/
def initialDialogState : DialogState :=
  { isOpen := false, blob := none, blobSizeMb := none
    options := { maxMb := 25, bitrateKbps := 128, minChunkSec := 10
                 safetyMb := 1/2, addSplitTags := true }
    resolvePromise := none }

/-- A promise resolution: which promise was resolved and with what value
(`some options` or `null`). -/
def DialogResolution : Type := Nat × Option SplitAudioDialogOptions

/-- `open` of the store (source lines 49-60): resolve any pending promise with
`null`, install the request fields, open the dialog and install the resolver
of a fresh promise `newId`.  Returns the new state and the resolutions
performed. -/
def openDialog (s : DialogState) (request : SplitAudioDialogRequest) (newId : Nat) :
    DialogState × List DialogResolution :=
  let resolutions : List DialogResolution :=
    match s.resolvePromise with
    | some pid => [(pid, none)]
    | none => []
  ({ isOpen := true, blob := some request.blob, blobSizeMb := some request.blobSizeMb
     options := request.options, resolvePromise := some newId }, resolutions)

/-- `confirm` of the store (source lines 61-67): a no-op without a pending
resolver; otherwise close the dialog, resolve the pending promise with the
current options and clear the resolver. -/
def confirmDialog (s : DialogState) : DialogState × List DialogResolution :=
  match s.resolvePromise with
  | none => (s, [])
  | some pid =>
    ({ s with isOpen := false, resolvePromise := none }, [(pid, some s.options)])

/-- `cancel` of the store (source lines 68-73): a no-op without a pending
resolver; otherwise close the dialog, resolve the pending promise with `null`
and clear the resolver. -/
def cancelDialog (s : DialogState) : DialogState × List DialogResolution :=
  match s.resolvePromise with
  | none => (s, [])
  | some pid =>
    ({ s with isOpen := false, resolvePromise := none }, [(pid, none)])

/-! ### The transcribeRecording mutation -/

/-- A recording row, with the fields the mutation touches. -/
structure Recording where
  id : Nat
  transcriptionStatus : String
  transcribedText : String
  deriving DecidableEq

/-- Observable events of one `transcribeRecording` run: each database update
attempted (with the full row written) and each warning notification. -/
inductive RecEvent where
  | dbUpdateCalled (r : Recording)
  | warningNotified (title : String)
  deriving DecidableEq

/-- The database services `transcribeRecording` uses: fetching the audio blob
of a recording id and updating a recording row. -/
structure RecordingEnv where
  getAudioBlob : Nat → Except String Blob
  dbUpdate : Recording → Except String Unit

/-- One database update attempt followed by a warning notification when it
fails (the `notify.warning` pattern of the mutation). -/
def dbUpdateStep (renv : RecordingEnv) (row : Recording) (warnTitle : String) :
    List RecEvent :=
  match renv.dbUpdate row with
  | Except.error _ => [RecEvent.dbUpdateCalled row, RecEvent.warningNotified warnTitle]
  | Except.ok _ => [RecEvent.dbUpdateCalled row]

/-- `transcribeRecording` (source lines 105-178): fetch the audio blob, mark
the recording `TRANSCRIBING`, transcribe, then mark it `FAILED` and return the
error, or store the text with status `DONE` and return it; every database
update failure only emits a warning. -/
def transcribeRecording (renv : RecordingEnv) (tenv : TranscribeEnv)
    (recording : Recording) : Except WhisperingError String × List RecEvent :=
  match renv.getAudioBlob recording.id with
  | Except.error getAudioBlobError =>
    (Except.error
      { title := "⚠️ Failed to fetch audio",
        description := "Unable to load audio for recording: " ++ getAudioBlobError }, [])
  | Except.ok audioBlob =>
    let ev1 := dbUpdateStep renv { recording with transcriptionStatus := "TRANSCRIBING" }
      "⚠️ Unable to set recording transcription status to transcribing"
    match (transcribeBlob tenv audioBlob).1 with
    | Except.error transcribeError =>
      let ev2 := dbUpdateStep renv { recording with transcriptionStatus := "FAILED" }
        "⚠️ Unable to update recording after transcription"
      (Except.error transcribeError, ev1 ++ ev2)
    | Except.ok transcribedText =>
      let ev3 := dbUpdateStep renv
        { recording with transcribedText := transcribedText, transcriptionStatus := "DONE" }
        "⚠️ Unable to update recording after transcription"
      (Except.ok transcribedText, ev1 ++ ev3)

/-! ### Definitions taken from the words of the spec, for comparison -/

/-- The chunk-duration formula exactly as the spec writes it:
`target_bytes = (maxMb - safetyMb) * 1_048_576`,
`bytes_per_second = bitrateKbps * 1000 / 8`,
`chunk_seconds = max(minChunkSec, floor(target_bytes / bytes_per_second))`. -/
def specChunkSeconds (maxMb safetyMb bitrateKbps minChunkSec : ℚ) : ℚ :=
  let target_bytes : ℚ := (maxMb - safetyMb) * 1048576
  let bytes_per_second : ℚ := bitrateKbps * 1000 / 8
  max minChunkSec ((⌊target_bytes / bytes_per_second⌋ : ℤ) : ℚ)

/-! ### Concrete fixtures used by counterexamples and witnesses -/

/-- A 26 MiB blob, above the 25 MiB transcription limit. -/
def oversizedBlob : Blob := { size := 26 * MB_BYTES, tag := 0 }

/-- A small blob, below the transcription limit. -/
def smallBlob : Blob := { size := 1000, tag := 1 }

/-- A first audio chunk. -/
def chunkA : Blob := { size := 4 * MB_BYTES, tag := 2 }

/-- A second audio chunk. -/
def chunkB : Blob := { size := 4 * MB_BYTES, tag := 3 }

/-- The default splitting options of the store. -/
def defaultOptions : SplitAudioDialogOptions :=
  { maxMb := 25, bitrateKbps := 128, minChunkSec := 10, safetyMb := 1/2
    addSplitTags := true }

/-- An environment where compression is enabled and succeeds (producing
`smallBlob`), the split dialog is confirmed with the default options, and both
ffmpeg splitting and the provider succeed. -/
def envCompressThenSplit : TranscribeEnv :=
  { compressionEnabled := true
    compressAudioBlob := fun _ => Except.ok smallBlob
    splitAudioBlob := fun _ _ => Except.ok []
    dialogResult := some defaultOptions
    selectedService := TranscriptionService.openai
    providerTranscribe := fun _ _ => Except.ok "text" }

/-- An environment where the split dialog is cancelled (its promise resolves
with `null`). -/
def envDialogCanceled : TranscribeEnv :=
  { compressionEnabled := false
    compressAudioBlob := fun _ => Except.ok smallBlob
    splitAudioBlob := fun _ _ => Except.ok []
    dialogResult := none
    selectedService := TranscriptionService.openai
    providerTranscribe := fun _ _ => Except.ok "text" }

/-- An environment where compression is enabled but fails. -/
def envCompressFails : TranscribeEnv :=
  { compressionEnabled := true
    compressAudioBlob := fun _ => Except.error "ffmpeg exited with code 1"
    splitAudioBlob := fun _ _ => Except.ok []
    dialogResult := some defaultOptions
    selectedService := TranscriptionService.openai
    providerTranscribe := fun _ _ => Except.ok "text" }

/-- An environment whose ffmpeg split service yields the two chunks `chunkA`
and `chunkB` and whose provider transcribes every chunk to `" hello "`. -/
def envTwoChunksOk : TranscribeEnv :=
  { compressionEnabled := false
    compressAudioBlob := fun _ => Except.ok smallBlob
    splitAudioBlob := fun _ _ => Except.ok [chunkA, chunkB]
    dialogResult := some defaultOptions
    selectedService := TranscriptionService.openai
    providerTranscribe := fun _ _ => Except.ok " hello " }

/-- An environment whose ffmpeg split service fails. -/
def envSplitFails : TranscribeEnv :=
  { compressionEnabled := false
    compressAudioBlob := fun _ => Except.ok smallBlob
    splitAudioBlob := fun _ _ => Except.error "boom"
    dialogResult := some defaultOptions
    selectedService := TranscriptionService.openai
    providerTranscribe := fun _ _ => Except.ok "text" }

/-- The provider error of the failing chunk in `envSecondChunkFails`. -/
def chunkBError : WhisperingError := { title := "Rate limited" }

/-- An environment that splits into `chunkA` and `chunkB`, transcribes
`chunkA` successfully and fails on `chunkB`. -/
def envSecondChunkFails : TranscribeEnv :=
  { compressionEnabled := false
    compressAudioBlob := fun _ => Except.ok smallBlob
    splitAudioBlob := fun _ _ => Except.ok [chunkA, chunkB]
    dialogResult := some defaultOptions
    selectedService := TranscriptionService.openai
    providerTranscribe := fun _ b =>
      if b = chunkB then Except.error chunkBError else Except.ok "ok" }

/-- A sample recording row. -/
def sampleRecording : Recording :=
  { id := 7, transcriptionStatus := "UNPROCESSED", transcribedText := "" }

/-- Database services where fetching succeeds with `smallBlob` and every
update succeeds. -/
def renvOk : RecordingEnv :=
  { getAudioBlob := fun _ => Except.ok smallBlob
    dbUpdate := fun _ => Except.ok () }

/-- A transcription environment whose provider always fails. -/
def envProviderFails : TranscribeEnv :=
  { compressionEnabled := false
    compressAudioBlob := fun _ => Except.ok smallBlob
    splitAudioBlob := fun _ _ => Except.ok []
    dialogResult := some defaultOptions
    selectedService := TranscriptionService.openai
    providerTranscribe := fun _ _ => Except.error chunkBError }

/-- Database services where fetching succeeds with `smallBlob` and every
update fails. -/
def renvDbFails : RecordingEnv :=
  { getAudioBlob := fun _ => Except.ok smallBlob
    dbUpdate := fun _ => Except.error "db locked" }

/-- A request handed to the dialog store in examples. -/
def sampleRequest : SplitAudioDialogRequest :=
  { blob := oversizedBlob, blobSizeMb := 26, options := defaultOptions }

/-- A dialog state with a pending request (promise `3` unresolved). -/
def pendingDialogState : DialogState :=
  { initialDialogState with isOpen := true, resolvePromise := some 3 }

/-! ### Helper lemmas -/

theorem transcribeWithProvider_eq (env : TranscribeEnv) (b : Blob)
    (h : env.selectedService ≠ TranscriptionService.unselected) :
    transcribeWithProvider env b =
      (env.providerTranscribe env.selectedService b, [TEvent.providerCalled b]) := by
  cases hs : env.selectedService <;> simp [transcribeWithProvider, hs] at h ⊢

theorem mem_transcribeWithProvider_events (env : TranscribeEnv) (b : Blob) (e : TEvent)
    (h : e ∈ (transcribeWithProvider env b).2) : e = TEvent.providerCalled b := by
  cases hs : env.selectedService <;> simp [transcribeWithProvider, hs] at h <;> exact h

theorem mem_compressStep_events (env : TranscribeEnv) (blob : Blob) (e : TEvent)
    (h : e ∈ (compressStep env blob).2) :
    e = TEvent.compressFailed blob ∨ ∃ c, e = TEvent.compressSucceeded blob c := by
  by_cases hc : env.compressionEnabled <;> simp [compressStep, hc] at h
  · cases hr : env.compressAudioBlob blob <;> rw [hr] at h <;> simp at h
    · exact Or.inl h
    · exact Or.inr ⟨_, h⟩

theorem mem_splitLoop_events (env : TranscribeEnv) (tags : Bool) (cs : ℚ) :
    ∀ (l : List Blob) (i : Nat) (m : List String) (e : TEvent),
      e ∈ (splitLoop env tags cs l i m).2 → ∃ b, b ∈ l ∧ e = TEvent.providerCalled b
  | [], _, _, _, h => by simp [splitLoop] at h
  | chunk :: rest, i, m, e, h => by
    rw [splitLoop] at h
    cases hr : (transcribeWithProvider env chunk).1 <;> rw [hr] at h <;> simp at h
    · exact ⟨chunk, by simp, mem_transcribeWithProvider_events env chunk e h⟩
    · rcases h with h | h
      · exact ⟨chunk, by simp, mem_transcribeWithProvider_events env chunk e h⟩
      · rcases mem_splitLoop_events env tags cs _ _ _ e h with ⟨b, hb, he⟩
        exact ⟨b, by simp [hb], he⟩

theorem mem_transcribeSplitAudio_events (env : TranscribeEnv) (blob : Blob)
    (o : SplitAudioDialogOptions) (e : TEvent)
    (h : e ∈ (transcribeSplitAudio env blob o).2) :
    e = TEvent.splitCalled blob ∨ ∃ b, e = TEvent.providerCalled b := by
  rw [transcribeSplitAudio] at h
  cases hr : env.splitAudioBlob blob o.toParams <;> rw [hr] at h <;> simp at h
  · exact Or.inl h
  · rcases h with h | h
    · exact Or.inl h
    · rcases mem_splitLoop_events env o.addSplitTags _ _ _ _ e h with ⟨b, _, he⟩
      exact Or.inr ⟨b, he⟩

theorem splitCalled_mem_transcribeSplitAudio (env : TranscribeEnv) (blob : Blob)
    (o : SplitAudioDialogOptions) :
    TEvent.splitCalled blob ∈ (transcribeSplitAudio env blob o).2 := by
  rw [transcribeSplitAudio]
  cases hr : env.splitAudioBlob blob o.toParams <;> simp

theorem splitLoop_all_ok (env : TranscribeEnv)
    (hsvc : env.selectedService ≠ TranscriptionService.unselected) (tags : Bool) (cs : ℚ) :
    ∀ {chunks : List Blob} {texts : List String},
      List.Forall₂ (fun b t => env.providerTranscribe env.selectedService b = Except.ok t)
        chunks texts →
      ∀ (i : Nat) (acc : List String),
        splitLoop env tags cs chunks i acc =
          (Except.ok (acc ++ expectedSegments tags cs i texts),
            chunks.map TEvent.providerCalled) := by
  intro chunks texts hall
  induction hall with
  | nil => intro i acc; simp [splitLoop, expectedSegments]
  | cons hbt htail ih =>
    intro i acc
    rw [splitLoop, transcribeWithProvider_eq env _ hsvc]
    simp only [hbt, expectedSegments, ih]
    cases tags <;> simp

theorem splitLoop_error_after (env : TranscribeEnv)
    (hsvc : env.selectedService ≠ TranscriptionService.unselected) (tags : Bool) (cs : ℚ)
    (c : Blob) (post : List Blob) (e : WhisperingError)
    (hc : env.providerTranscribe env.selectedService c = Except.error e) :
    ∀ (pre : List Blob) (i : Nat) (acc : List String),
      (∀ b ∈ pre, ∃ t, env.providerTranscribe env.selectedService b = Except.ok t) →
      splitLoop env tags cs (pre ++ c :: post) i acc =
        (Except.error e, (pre ++ [c]).map TEvent.providerCalled)
  | [], i, acc, _ => by
    rw [List.nil_append, splitLoop, transcribeWithProvider_eq env c hsvc]
    simp [hc]
  | b :: pre, i, acc, hall => by
    rw [List.cons_append, splitLoop, transcribeWithProvider_eq env b hsvc]
    rcases hall b (by simp) with ⟨t, ht⟩
    simp only [ht]
    rw [splitLoop_error_after env hsvc tags cs c post e hc pre (i + 1) _
      (fun b hb => hall b (by simp [hb]))]
    simp

theorem expectedSegments_false (cs : ℚ) :
    ∀ (i : Nat) (texts : List String),
      expectedSegments false cs i texts = texts.map String.trim
  | _, [] => rfl
  | i, t :: rest => by
    simp [expectedSegments, expectedSegments_false cs (i + 1) rest]

theorem formatTimestamp_eq_mmss (t : ℚ) (h : ⌊t⌋ < 3600) :
    formatTimestamp t = specTimestampMMSS t := by
  have hc : (max 0 ⌊t⌋).toNat < 3600 := by omega
  simp only [formatTimestamp, specTimestampMMSS]
  rw [Nat.div_eq_of_lt hc, Nat.mod_eq_of_lt hc]
  simp

theorem dbUpdateCalled_mem_dbUpdateStep (renv : RecordingEnv) (row : Recording)
    (w : String) : RecEvent.dbUpdateCalled row ∈ dbUpdateStep renv row w := by
  rw [dbUpdateStep]
  cases renv.dbUpdate row <;> simp

theorem warning_mem_dbUpdateStep (renv : RecordingEnv) (row : Recording)
    (w fail : String) (h : renv.dbUpdate row = Except.error fail) :
    RecEvent.warningNotified w ∈ dbUpdateStep renv row w := by
  rw [dbUpdateStep, h]
  simp

/-! ### The claims -/

/-- C1: for every options record, the chunk duration computed by
`calculateChunkSeconds` equals the chunk-duration formula of the spec,
`max(minChunkSec, floor(((maxMb - safetyMb) * 1048576) / (bitrateKbps * 1000 / 8)))`. -/
theorem calculateChunkSeconds_matches_spec (o : SplitParams) :
    calculateChunkSeconds o =
      specChunkSeconds o.maxMb o.safetyMb o.bitrateKbps o.minChunkSec := by
  simp [calculateChunkSeconds, specChunkSeconds, MB_BYTES]

/-- C3 counterexample: at end time 3600 seconds the emitted split tag is
`[Chunk 1 • 00:00 – 01:00:00]`, whose second timestamp is not of the
two-digit `mm:ss` shape the claim states for all inputs. -/
theorem formatSplitTag_hour_not_mmss :
    formatSplitTag 1 0 3600 = "[Chunk 1 • 00:00 – 01:00:00]" ∧
    formatSplitTag 1 0 3600 ≠
      "[Chunk " ++ toString 1 ++ " • " ++ specTimestampMMSS 0 ++ " – " ++
        specTimestampMMSS 3600 ++ "]" := by
  exact ⟨rfl, by decide⟩

/-- C3 amended: for every chunk index `n ≥ 1` and non-negative start and end
times, the split tag emitted at merge time is exactly
`[Chunk {n} • {mm:ss} – {mm:ss}]` with minutes and seconds each zero-padded to
two digits, provided both timestamps are below one hour; a timestamp of one
hour or more renders as `hh:mm:ss` instead. -/
theorem formatSplitTag_mmss_below_one_hour (n : Nat) (s e : ℚ)
    (_hn : 1 ≤ n) (_hs0 : 0 ≤ s) (_he0 : 0 ≤ e)
    (hs : ⌊s⌋ < 3600) (he : ⌊e⌋ < 3600) :
    formatSplitTag n s e =
      "[Chunk " ++ toString n ++ " • " ++ specTimestampMMSS s ++ " – " ++
        specTimestampMMSS e ++ "]" := by
  rw [formatSplitTag, formatTimestamp_eq_mmss s hs, formatTimestamp_eq_mmss e he]

/-- C3 witness: the amended statement at chunk 2 of a 1605-second chunking. -/
theorem formatSplitTag_mmss_below_one_hour_witness :
    (1 : Nat) ≤ 2 ∧ (0 : ℚ) ≤ 1605 ∧ (0 : ℚ) ≤ 3210 ∧
    ⌊(1605 : ℚ)⌋ < 3600 ∧ ⌊(3210 : ℚ)⌋ < 3600 ∧
    formatSplitTag 2 1605 3210 =
      "[Chunk " ++ toString 2 ++ " • " ++ specTimestampMMSS 1605 ++ " – " ++
        specTimestampMMSS 3210 ++ "]" :=
  ⟨by decide, by decide, by decide, by decide, by decide,
    formatSplitTag_mmss_below_one_hour 2 1605 3210 (by decide) (by decide) (by decide)
      (by decide) (by decide)⟩

/-- C2 counterexample: with compression enabled and succeeding (producing
`smallBlob`) on an oversized blob, the splitting step is handed the original
fetched blob, never the compression output — refuting the claim that the
audio handed to the splitting step is the output of the compression step. -/
theorem compressed_audio_not_handed_to_split :
    envCompressThenSplit.compressionEnabled = true ∧
    envCompressThenSplit.compressAudioBlob oversizedBlob = Except.ok smallBlob ∧
    smallBlob ≠ oversizedBlob ∧
    oversizedBlob.size > MAX_TRANSCRIPTION_FILE_MB * MB_BYTES ∧
    TEvent.splitCalled oversizedBlob ∈ (transcribeBlob envCompressThenSplit oversizedBlob).2 ∧
    TEvent.splitCalled smallBlob ∉ (transcribeBlob envCompressThenSplit oversizedBlob).2 :=
  ⟨rfl, rfl, by decide, by decide, by decide, by decide⟩

/-- C2 amended: the pipeline runs in the order fetch blob, optionally
compress, optionally split, transcribe, merge; however the split decision is
taken on the size of the fetched blob and the splitting step is handed the
fetched blob itself — the compression output feeds only the direct provider
path.  The trace equality exhibits the order: compression events first, then
the dialog, then the split run on the original blob. -/
theorem transcribeBlob_split_on_original (env : TranscribeEnv) (blob : Blob)
    (o : SplitAudioDialogOptions)
    (hsize : blob.size > MAX_TRANSCRIPTION_FILE_MB * MB_BYTES)
    (hdialog : env.dialogResult = some o) :
    transcribeBlob env blob =
      ((transcribeSplitAudio env blob o).1,
        (compressStep env blob).2 ++
          TEvent.dialogOpened blob :: (transcribeSplitAudio env blob o).2) ∧
    ∀ c, TEvent.splitCalled c ∈ (transcribeBlob env blob).2 → c = blob := by
  have h1 : transcribeBlob env blob =
      ((transcribeSplitAudio env blob o).1,
        (compressStep env blob).2 ++
          TEvent.dialogOpened blob :: (transcribeSplitAudio env blob o).2) := by
    simp [transcribeBlob, pipelineAfterCompression, hdialog, hsize]
  refine ⟨h1, fun c hc => ?_⟩
  rw [h1] at hc
  simp only [List.mem_append, List.mem_cons] at hc
  rcases hc with hc | hc | hc
  · rcases mem_compressStep_events env blob _ hc with h | ⟨d, h⟩ <;> simp at h
  · simp at hc
  · rcases mem_transcribeSplitAudio_events env blob o _ hc with h | ⟨d, h⟩
    · exact (TEvent.splitCalled.injEq c blob).mp h
    · simp at h

/-- C2 witness: the amended statement on a concrete oversized blob with a
confirmed dialog. -/
theorem transcribeBlob_split_on_original_witness :
    oversizedBlob.size > MAX_TRANSCRIPTION_FILE_MB * MB_BYTES ∧
    envCompressThenSplit.dialogResult = some defaultOptions ∧
    transcribeBlob envCompressThenSplit oversizedBlob =
      ((transcribeSplitAudio envCompressThenSplit oversizedBlob defaultOptions).1,
        (compressStep envCompressThenSplit oversizedBlob).2 ++
          TEvent.dialogOpened oversizedBlob ::
            (transcribeSplitAudio envCompressThenSplit oversizedBlob defaultOptions).2) :=
  ⟨by decide, rfl,
    (transcribeBlob_split_on_original envCompressThenSplit oversizedBlob defaultOptions
      (by decide) rfl).1⟩

/-- C4: when `ffmpeg.splitAudioBlob` yields `chunks` and every chunk
transcribes successfully to the corresponding entry of `texts`, the merged
transcript is the segments joined with a blank line; with `addSplitTags`
enabled the segments interleave, before the text of the `n`-th chunk, the tag
of chunk `n` covering `(n-1) * chunkSeconds` to `n * chunkSeconds` (this is
`expectedSegments true`), and with `addSplitTags` disabled the merged
transcript is exactly the trimmed chunk transcripts joined with `"\n\n"`,
with no tag inserted. -/
theorem transcribeSplitAudio_merge_spec (env : TranscribeEnv) (blob : Blob)
    (o : SplitAudioDialogOptions) (chunks : List Blob) (texts : List String)
    (hsvc : env.selectedService ≠ TranscriptionService.unselected)
    (hsplit : env.splitAudioBlob blob o.toParams = Except.ok chunks)
    (hall : List.Forall₂
      (fun b t => env.providerTranscribe env.selectedService b = Except.ok t) chunks texts) :
    (o.addSplitTags = true →
      (transcribeSplitAudio env blob o).1 =
        Except.ok (String.intercalate "\n\n"
          (expectedSegments true (calculateChunkSeconds o.toParams) 0 texts))) ∧
    (o.addSplitTags = false →
      (transcribeSplitAudio env blob o).1 =
        Except.ok (String.intercalate "\n\n" (texts.map String.trim))) := by
  constructor
  · intro htags
    rw [transcribeSplitAudio, hsplit]
    simp only [htags,
      splitLoop_all_ok env hsvc true (calculateChunkSeconds o.toParams) hall 0 []]
    simp
  · intro htags
    rw [transcribeSplitAudio, hsplit]
    simp only [htags,
      splitLoop_all_ok env hsvc false (calculateChunkSeconds o.toParams) hall 0 []]
    simp [expectedSegments_false]

/-- C4 witness: two chunks both transcribing to `" hello "`, merged with the
default options (tags enabled). -/
theorem transcribeSplitAudio_merge_spec_witness :
    envTwoChunksOk.selectedService ≠ TranscriptionService.unselected ∧
    envTwoChunksOk.splitAudioBlob oversizedBlob defaultOptions.toParams =
      Except.ok [chunkA, chunkB] ∧
    defaultOptions.addSplitTags = true ∧
    (transcribeSplitAudio envTwoChunksOk oversizedBlob defaultOptions).1 =
      Except.ok (String.intercalate "\n\n"
        (expectedSegments true (calculateChunkSeconds defaultOptions.toParams) 0
          [" hello ", " hello "])) :=
  ⟨by decide, rfl, rfl,
    (transcribeSplitAudio_merge_spec envTwoChunksOk oversizedBlob defaultOptions
      [chunkA, chunkB] [" hello ", " hello "] (by decide) rfl
      (List.Forall₂.cons rfl (List.Forall₂.cons rfl List.Forall₂.nil))).1 rfl⟩

/-- C5 counterexample: on an oversized blob with the dialog cancelled, the
dialog opens but the splitting step is never invoked (the whole trace is the
single dialog event and the result is the cancel error) — refuting the claim
that the splitting step runs exactly when the blob exceeds the limit. -/
theorem split_not_called_when_dialog_canceled :
    oversizedBlob.size > MAX_TRANSCRIPTION_FILE_MB * MB_BYTES ∧
    transcribeBlob envDialogCanceled oversizedBlob =
      (Except.error splitCanceledError, [TEvent.dialogOpened oversizedBlob]) :=
  ⟨by decide, rfl⟩

/-- C5 amended: the split-configuration dialog is opened exactly when the
fetched blob exceeds `25 * 1048576` bytes; the splitting step is invoked
exactly when, in addition, the dialog resolves with options rather than being
cancelled; a blob at or below that size is sent directly to the selected
provider, with no dialog and no splitting. -/
theorem split_path_iff_oversized (env : TranscribeEnv) (blob : Blob) :
    (TEvent.dialogOpened blob ∈ (transcribeBlob env blob).2 ↔
      blob.size > MAX_TRANSCRIPTION_FILE_MB * MB_BYTES) ∧
    ((∃ b, TEvent.splitCalled b ∈ (transcribeBlob env blob).2) ↔
      blob.size > MAX_TRANSCRIPTION_FILE_MB * MB_BYTES ∧ env.dialogResult ≠ none) ∧
    (blob.size ≤ MAX_TRANSCRIPTION_FILE_MB * MB_BYTES →
      transcribeBlob env blob =
        ((transcribeWithProvider env (compressStep env blob).1).1,
          (compressStep env blob).2 ++
            (transcribeWithProvider env (compressStep env blob).1).2)) := by
  by_cases hsize : blob.size > MAX_TRANSCRIPTION_FILE_MB * MB_BYTES
  · have htrace : (transcribeBlob env blob).2 =
        (compressStep env blob).2 ++
          (pipelineAfterCompression env blob (compressStep env blob).1).2 := by
      simp [transcribeBlob]
    refine ⟨?_, ?_, fun hle => absurd hsize (by omega)⟩
    · constructor
      · intro _; exact hsize
      · intro _
        rw [htrace]
        rcases hd : env.dialogResult with _ | o <;>
          simp [pipelineAfterCompression, hsize, hd]
    · constructor
      · rintro ⟨b, hb⟩
        rw [htrace] at hb
        rcases List.mem_append.mp hb with hb | hb
        · rcases mem_compressStep_events env blob _ hb with h | ⟨d, h⟩ <;> simp at h
        · rcases hd : env.dialogResult with _ | o
          · simp [pipelineAfterCompression, hsize, hd] at hb
          · exact ⟨hsize, by simp [hd]⟩
      · rintro ⟨_, hd⟩
        rcases ho : env.dialogResult with _ | o
        · exact absurd ho hd
        · refine ⟨blob, ?_⟩
          rw [htrace]
          refine List.mem_append.mpr (Or.inr ?_)
          simp only [pipelineAfterCompression, hsize, ho]
          simp [splitCalled_mem_transcribeSplitAudio]
  · have hpipe : pipelineAfterCompression env blob (compressStep env blob).1 =
        transcribeWithProvider env (compressStep env blob).1 := by
      simp [pipelineAfterCompression, hsize]
    have htrace : (transcribeBlob env blob).2 =
        (compressStep env blob).2 ++
          (pipelineAfterCompression env blob (compressStep env blob).1).2 := by
      simp [transcribeBlob]
    refine ⟨?_, ?_, fun _ => ?_⟩
    · constructor
      · intro hmem
        rw [htrace, hpipe] at hmem
        rcases List.mem_append.mp hmem with hb | hb
        · rcases mem_compressStep_events env blob _ hb with h | ⟨d, h⟩ <;> simp at h
        · have := mem_transcribeWithProvider_events env _ _ hb
          simp at this
      · intro h; exact absurd h hsize
    · constructor
      · rintro ⟨b, hb⟩
        rw [htrace, hpipe] at hb
        rcases List.mem_append.mp hb with hb | hb
        · rcases mem_compressStep_events env blob _ hb with h | ⟨d, h⟩ <;> simp at h
        · have := mem_transcribeWithProvider_events env _ _ hb
          simp at this
      · rintro ⟨h, _⟩; exact absurd h hsize
    · rw [transcribeBlob]
      simp only [hpipe]

/-- C5 witness: the dialog iff on a concrete oversized blob, and the direct
provider path on a concrete small blob. -/
theorem split_path_iff_oversized_witness :
    (TEvent.dialogOpened oversizedBlob ∈ (transcribeBlob envDialogCanceled oversizedBlob).2 ↔
      oversizedBlob.size > MAX_TRANSCRIPTION_FILE_MB * MB_BYTES) ∧
    smallBlob.size ≤ MAX_TRANSCRIPTION_FILE_MB * MB_BYTES ∧
    transcribeBlob envCompressThenSplit smallBlob =
      ((transcribeWithProvider envCompressThenSplit
          (compressStep envCompressThenSplit smallBlob).1).1,
        (compressStep envCompressThenSplit smallBlob).2 ++
          (transcribeWithProvider envCompressThenSplit
            (compressStep envCompressThenSplit smallBlob).1).2) :=
  ⟨(split_path_iff_oversized envDialogCanceled oversizedBlob).1, by decide,
    (split_path_iff_oversized envCompressThenSplit smallBlob).2.2 (by decide)⟩

/-- C6: when compression is enabled and fails, `transcribeBlob` notifies the
failure and continues with the original blob: the run equals the rest of the
pipeline applied to the fetched blob itself, its trace prefixed with the
compression-failure notification, and the returned result is computed without
any reference to the compression error. -/
theorem compression_failure_keeps_original_blob (env : TranscribeEnv) (blob : Blob)
    (ce : String) (hen : env.compressionEnabled = true)
    (herr : env.compressAudioBlob blob = Except.error ce) :
    transcribeBlob env blob =
      ((pipelineAfterCompression env blob blob).1,
        TEvent.compressFailed blob :: (pipelineAfterCompression env blob blob).2) := by
  simp [transcribeBlob, compressStep, hen, herr]

/-- C6 witness: a concrete failing compression on a small blob. -/
theorem compression_failure_keeps_original_blob_witness :
    envCompressFails.compressionEnabled = true ∧
    envCompressFails.compressAudioBlob smallBlob =
      Except.error "ffmpeg exited with code 1" ∧
    transcribeBlob envCompressFails smallBlob =
      ((pipelineAfterCompression envCompressFails smallBlob smallBlob).1,
        TEvent.compressFailed smallBlob ::
          (pipelineAfterCompression envCompressFails smallBlob smallBlob).2) :=
  ⟨rfl, rfl,
    compression_failure_keeps_original_blob envCompressFails smallBlob
      "ffmpeg exited with code 1" rfl rfl⟩

/-- C7: in the split path an error aborts the operation.  If the split
service errs, `transcribeSplitAudio` returns the `Audio split failed` error
without transcribing anything; if transcribing a chunk errs after the earlier
chunks succeeded, it returns that chunk error immediately and the provider is
called exactly on the chunks up to and including the failing one — no merged
transcript, no later chunk transcribed. -/
theorem split_path_errors_abort (env : TranscribeEnv) (blob : Blob)
    (o : SplitAudioDialogOptions) :
    (∀ se, env.splitAudioBlob blob o.toParams = Except.error se →
      transcribeSplitAudio env blob o =
        (Except.error { title := "Audio split failed", serviceError := some se },
          [TEvent.splitCalled blob])) ∧
    (∀ (pre : List Blob) (c : Blob) (post : List Blob) (e : WhisperingError),
      env.splitAudioBlob blob o.toParams = Except.ok (pre ++ c :: post) →
      env.selectedService ≠ TranscriptionService.unselected →
      (∀ b ∈ pre, ∃ t, env.providerTranscribe env.selectedService b = Except.ok t) →
      env.providerTranscribe env.selectedService c = Except.error e →
      transcribeSplitAudio env blob o =
        (Except.error e,
          TEvent.splitCalled blob :: (pre ++ [c]).map TEvent.providerCalled)) := by
  constructor
  · intro se hse
    simp [transcribeSplitAudio, hse]
  · intro pre c post e hsplit hsvc hpre hc
    rw [transcribeSplitAudio, hsplit]
    dsimp only
    rw [splitLoop_error_after env hsvc o.addSplitTags _ c post e hc pre 0 [] hpre]

/-- C7 witness: a concrete failing split service, and a concrete run whose
second chunk fails after the first succeeded. -/
theorem split_path_errors_abort_witness :
    envSplitFails.splitAudioBlob oversizedBlob defaultOptions.toParams =
      Except.error "boom" ∧
    transcribeSplitAudio envSplitFails oversizedBlob defaultOptions =
      (Except.error { title := "Audio split failed", serviceError := some "boom" },
        [TEvent.splitCalled oversizedBlob]) ∧
    envSecondChunkFails.providerTranscribe envSecondChunkFails.selectedService chunkB =
      Except.error chunkBError ∧
    transcribeSplitAudio envSecondChunkFails oversizedBlob defaultOptions =
      (Except.error chunkBError,
        TEvent.splitCalled oversizedBlob ::
          ([chunkA] ++ [chunkB]).map TEvent.providerCalled) :=
  ⟨rfl, (split_path_errors_abort envSplitFails oversizedBlob defaultOptions).1 "boom" rfl,
    rfl,
    (split_path_errors_abort envSecondChunkFails oversizedBlob defaultOptions).2
      [chunkA] chunkB [] chunkBError rfl (by decide)
      (fun b hb => ⟨"ok", by simp only [List.mem_singleton] at hb; subst hb; rfl⟩) rfl⟩

/-- C8: the store keeps at most one pending request.  `open` resolves any
previously pending promise with `null` before installing the resolver of the
new promise (and installs the request fields with the dialog open); after
`confirm` or `cancel` on a pending request the resolver is cleared and
`isOpen` is false, `confirm` resolving the pending promise with the current
options and `cancel` resolving it with `null`. -/
theorem dialog_single_pending_request (s : DialogState)
    (req : SplitAudioDialogRequest) (newId : Nat) :
    ((openDialog s req newId).1.resolvePromise = some newId ∧
     (openDialog s req newId).1.isOpen = true ∧
     (openDialog s req newId).1.blob = some req.blob ∧
     (openDialog s req newId).1.blobSizeMb = some req.blobSizeMb ∧
     (openDialog s req newId).1.options = req.options ∧
     (∀ pid, s.resolvePromise = some pid → (openDialog s req newId).2 = [(pid, none)]) ∧
     (s.resolvePromise = none → (openDialog s req newId).2 = [])) ∧
    (∀ pid, s.resolvePromise = some pid →
      confirmDialog s =
        ({ s with isOpen := false, resolvePromise := none }, [(pid, some s.options)]) ∧
      cancelDialog s =
        ({ s with isOpen := false, resolvePromise := none }, [(pid, none)])) := by
  refine ⟨⟨rfl, rfl, rfl, rfl, rfl, ?_, ?_⟩, ?_⟩
  · intro pid h; simp [openDialog, h]
  · intro h; simp [openDialog, h]
  · intro pid h
    exact ⟨by simp [confirmDialog, h], by simp [cancelDialog, h]⟩

/-- C8 witness: a state with pending promise `3`, reopened as promise `5`,
then confirmed and cancelled. -/
theorem dialog_single_pending_request_witness :
    pendingDialogState.resolvePromise = some 3 ∧
    (openDialog pendingDialogState sampleRequest 5).1.resolvePromise = some 5 ∧
    (openDialog pendingDialogState sampleRequest 5).2 = [(3, none)] ∧
    confirmDialog pendingDialogState =
      ({ pendingDialogState with isOpen := false, resolvePromise := none },
        [(3, some pendingDialogState.options)]) ∧
    cancelDialog pendingDialogState =
      ({ pendingDialogState with isOpen := false, resolvePromise := none }, [(3, none)]) :=
  ⟨rfl,
    (dialog_single_pending_request pendingDialogState sampleRequest 5).1.1,
    (dialog_single_pending_request pendingDialogState sampleRequest 5).1.2.2.2.2.2.1 3 rfl,
    ((dialog_single_pending_request pendingDialogState sampleRequest 5).2 3 rfl).1,
    ((dialog_single_pending_request pendingDialogState sampleRequest 5).2 3 rfl).2⟩

/-- C9: when no request is pending, `confirm` and `cancel` are no-ops: the
whole state (including `isOpen`, `blob`, `blobSizeMb`, `options` and the
resolver) is unchanged and no promise is resolved. -/
theorem dialog_confirm_cancel_noop_without_pending (s : DialogState)
    (h : s.resolvePromise = none) :
    confirmDialog s = (s, []) ∧ cancelDialog s = (s, []) :=
  ⟨by simp [confirmDialog, h], by simp [cancelDialog, h]⟩

/-- C9 witness: the initial store state has no pending request; `confirm` and
`cancel` leave it untouched. -/
theorem dialog_confirm_cancel_noop_without_pending_witness :
    initialDialogState.resolvePromise = none ∧
    confirmDialog initialDialogState = (initialDialogState, []) ∧
    cancelDialog initialDialogState = (initialDialogState, []) :=
  ⟨rfl, dialog_confirm_cancel_noop_without_pending initialDialogState rfl⟩

/-- C10: once the audio blob is fetched, `transcribeRecording` attempts to
mark the recording `FAILED` and returns the transcription error when
transcription errs, and attempts to store the text with status `DONE` and
returns it when transcription succeeds; every failing database update (the
`TRANSCRIBING`, `FAILED` or `DONE` write) only emits a warning notification,
and the returned result does not depend on the database update service at
all. -/
theorem transcribeRecording_status_and_result (renv : RecordingEnv)
    (tenv : TranscribeEnv) (recording : Recording) (audioBlob : Blob)
    (hget : renv.getAudioBlob recording.id = Except.ok audioBlob) :
    (∀ e, (transcribeBlob tenv audioBlob).1 = Except.error e →
      (transcribeRecording renv tenv recording).1 = Except.error e ∧
      RecEvent.dbUpdateCalled { recording with transcriptionStatus := "FAILED" } ∈
        (transcribeRecording renv tenv recording).2 ∧
      (∀ w, renv.dbUpdate { recording with transcriptionStatus := "FAILED" } =
          Except.error w →
        RecEvent.warningNotified "⚠️ Unable to update recording after transcription" ∈
          (transcribeRecording renv tenv recording).2)) ∧
    (∀ t, (transcribeBlob tenv audioBlob).1 = Except.ok t →
      (transcribeRecording renv tenv recording).1 = Except.ok t ∧
      RecEvent.dbUpdateCalled
          { recording with transcribedText := t, transcriptionStatus := "DONE" } ∈
        (transcribeRecording renv tenv recording).2 ∧
      (∀ w, renv.dbUpdate
          { recording with transcribedText := t, transcriptionStatus := "DONE" } =
          Except.error w →
        RecEvent.warningNotified "⚠️ Unable to update recording after transcription" ∈
          (transcribeRecording renv tenv recording).2)) ∧
    (∀ w, renv.dbUpdate { recording with transcriptionStatus := "TRANSCRIBING" } =
        Except.error w →
      RecEvent.warningNotified
          "⚠️ Unable to set recording transcription status to transcribing" ∈
        (transcribeRecording renv tenv recording).2) ∧
    (∀ f, (transcribeRecording { renv with dbUpdate := f } tenv recording).1 =
      (transcribeRecording renv tenv recording).1) := by
  have heq : transcribeRecording renv tenv recording =
      match (transcribeBlob tenv audioBlob).1 with
      | Except.error e =>
        (Except.error e,
          dbUpdateStep renv { recording with transcriptionStatus := "TRANSCRIBING" }
            "⚠️ Unable to set recording transcription status to transcribing" ++
          dbUpdateStep renv { recording with transcriptionStatus := "FAILED" }
            "⚠️ Unable to update recording after transcription")
      | Except.ok t =>
        (Except.ok t,
          dbUpdateStep renv { recording with transcriptionStatus := "TRANSCRIBING" }
            "⚠️ Unable to set recording transcription status to transcribing" ++
          dbUpdateStep renv
            { recording with transcribedText := t, transcriptionStatus := "DONE" }
            "⚠️ Unable to update recording after transcription") := by
    rw [transcribeRecording, hget]
  refine ⟨?_, ?_, ?_, ?_⟩
  · intro e he
    rw [heq, he]
    exact ⟨rfl,
      List.mem_append.mpr (Or.inr (dbUpdateCalled_mem_dbUpdateStep _ _ _)),
      fun w hw => List.mem_append.mpr (Or.inr (warning_mem_dbUpdateStep _ _ _ w hw))⟩
  · intro t ht
    rw [heq, ht]
    exact ⟨rfl,
      List.mem_append.mpr (Or.inr (dbUpdateCalled_mem_dbUpdateStep _ _ _)),
      fun w hw => List.mem_append.mpr (Or.inr (warning_mem_dbUpdateStep _ _ _ w hw))⟩
  · intro w hw
    cases hb : (transcribeBlob tenv audioBlob).1 <;> rw [heq, hb] <;>
      exact List.mem_append.mpr (Or.inl (warning_mem_dbUpdateStep _ _ _ w hw))
  · intro f
    rw [transcribeRecording, transcribeRecording, hget]
    dsimp only
    cases hb : (transcribeBlob tenv audioBlob).1 <;> simp only [hb]

/-- C10 witness: a concrete failing transcription marks the recording
`FAILED` and returns the error, a concrete succeeding one returns the text,
and with a failing database a warning is emitted. -/
theorem transcribeRecording_status_and_result_witness :
    renvOk.getAudioBlob sampleRecording.id = Except.ok smallBlob ∧
    (transcribeBlob envProviderFails smallBlob).1 = Except.error chunkBError ∧
    (transcribeRecording renvOk envProviderFails sampleRecording).1 =
      Except.error chunkBError ∧
    RecEvent.dbUpdateCalled { sampleRecording with transcriptionStatus := "FAILED" } ∈
      (transcribeRecording renvOk envProviderFails sampleRecording).2 ∧
    (transcribeBlob envCompressThenSplit smallBlob).1 = Except.ok "text" ∧
    (transcribeRecording renvOk envCompressThenSplit sampleRecording).1 =
      Except.ok "text" ∧
    RecEvent.warningNotified
        "⚠️ Unable to set recording transcription status to transcribing" ∈
      (transcribeRecording renvDbFails envCompressThenSplit sampleRecording).2 :=
  ⟨rfl, rfl,
    ((transcribeRecording_status_and_result renvOk envProviderFails sampleRecording
      smallBlob rfl).1 chunkBError rfl).1,
    ((transcribeRecording_status_and_result renvOk envProviderFails sampleRecording
      smallBlob rfl).1 chunkBError rfl).2.1,
    rfl,
    ((transcribeRecording_status_and_result renvOk envCompressThenSplit sampleRecording
      smallBlob rfl).2.1 "text" rfl).1,
    (transcribeRecording_status_and_result renvDbFails envCompressThenSplit
      sampleRecording smallBlob rfl).2.2.1 "db locked" rfl⟩
